import Mathlib

/-!
Shallow embedding of the data-access layer of a GitHub repository explorer
(`src/services/githubApi.ts`, `src/hooks` query registrations, `src/types/github.ts`),
together with proofs about pagination, error normalization, the contribution
aggregation and the query-layer retry policies.
-/

namespace GhRepoExplorer

/-! ### Data model (`src/types/github.ts`) -/

/-- Type `GitHubUser` from `types/github.ts` (the fields the data layer reads;
optional profile fields are omitted because no code under verification reads them). -/
structure GitHubUser where
  id : Nat
  login : String
  avatar_url : String
  html_url : String
  type : String
deriving DecidableEq

/-- Type `GitHubRepository` from `types/github.ts`.  The TS `private` field is named
`isPrivate` because `private` is a Lean keyword. -/
structure GitHubRepository where
  id : Nat
  name : String
  full_name : String
  description : Option String
  html_url : String
  stargazers_count : Nat
  watchers_count : Nat
  forks_count : Nat
  language : Option String
  updated_at : String
  topics : List String
  isPrivate : Bool
  fork : Bool
deriving DecidableEq

/-- A commit entry inside a push event's payload. -/
structure GitHubCommit where
  sha : String
  message : String
deriving DecidableEq

/-- The optional `repo` reference of `GitHubEvent`. -/
structure GitHubEventRepo where
  id : Nat
  name : String
  url : String
deriving DecidableEq

/-- The event payload is `any` in the source; the only part the code ever reads
is `payload.commits` (an optional array), so the embedding carries exactly that. -/
structure GitHubEventPayload where
  commits : Option (List GitHubCommit)
deriving DecidableEq

/-- Type `GitHubEvent` from `types/github.ts`.  In the source `created_at` is an ISO
string which the aggregation parses with JS `new Date(...)`; the embedding
carries the parse result directly: `some t` is a valid timestamp (milliseconds
since the epoch of the calendar model below), `none` is an invalid date
(JS `Invalid Date`, whose numeric value is `NaN`). -/
structure GitHubEvent where
  id : String
  type : String
  created_at : Option Nat
  repo : Option GitHubEventRepo
  payload : Option GitHubEventPayload
deriving DecidableEq

/-- Type `GitHubContributionStats` from `types/github.ts`. -/
structure GitHubContributionStats where
  totalCommits : Nat
  totalPullRequests : Nat
  totalIssues : Nat
  totalRepositories : Nat
  recentActivity : List GitHubEvent
deriving DecidableEq

/-- Type `GitHubSearchUsersResponse` from `types/github.ts`. -/
structure GitHubSearchUsersResponse where
  total_count : Nat
  incomplete_results : Bool
  items : List GitHubUser
deriving DecidableEq

/-- The `GitHubApiError` class of `githubApi.ts`: a message and an optional
numeric HTTP status. -/
structure GitHubApiError where
  message : String
  status : Option Nat
deriving DecidableEq

/-! ### Calendar model for JS `Date`

The aggregation computes `oneYearAgo` by `d.setFullYear(d.getFullYear() - 1)`
and compares event timestamps against it numerically, so the embedding models a
JS `Date` as a civil date-time (proleptic Gregorian, years `≥ 1`) plus the
milliseconds elapsed within the day, and instants as the corresponding
millisecond count. -/

/-- Gregorian leap-year rule (what JS `Date` uses). -/
def isLeapYear (y : Nat) : Bool :=
  (y % 4 = 0 && y % 100 ≠ 0) || y % 400 = 0

/-- Number of days in month `m` (1–12) of year `y`. -/
def daysInMonth (y : Nat) (m : Nat) : Nat :=
  match m with
  | 2 => if isLeapYear y then 29 else 28
  | 4 => 30
  | 6 => 30
  | 9 => 30
  | 11 => 30
  | _ => 31

/-- Number of days in the months of year `y` strictly before month `m`. -/
def daysBeforeMonth (y : Nat) (m : Nat) : Nat :=
  let leap : Nat := if isLeapYear y then 1 else 0
  match m with
  | 1 => 0
  | 2 => 31
  | 3 => 59 + leap
  | 4 => 90 + leap
  | 5 => 120 + leap
  | 6 => 151 + leap
  | 7 => 181 + leap
  | 8 => 212 + leap
  | 9 => 243 + leap
  | 10 => 273 + leap
  | 11 => 304 + leap
  | _ => 334 + leap

/-- Number of days in the years `1, …, y-1`. -/
def daysBeforeYear (y : Nat) : Nat :=
  365 * (y - 1) + (y - 1) / 4 - (y - 1) / 100 + (y - 1) / 400

/-- Day index of the civil date `(y, m, d)`. -/
def dayNumber (y m d : Nat) : Nat :=
  daysBeforeYear y + daysBeforeMonth y m + (d - 1)

/-- A JS `Date` value, decomposed into civil fields plus milliseconds within
the day. -/
structure CivilDateTime where
  year : Nat
  month : Nat
  day : Nat
  msOfDay : Nat
deriving DecidableEq

/-- The numeric value of a JS `Date` (`getTime()`), in milliseconds. -/
def toMillis (t : CivilDateTime) : Nat :=
  dayNumber t.year t.month t.day * 86400000 + t.msOfDay

/-- Models `d.setFullYear(d.getFullYear() - 1)`: the year field is decremented
and JS normalizes a now-invalid Feb 29 into Mar 1 of the target year. -/
def setFullYearMinusOne (t : CivilDateTime) : CivilDateTime :=
  let y := t.year - 1
  if t.day ≤ daysInMonth y t.month then
    { t with year := y }
  else
    { t with year := y, month := t.month + 1, day := t.day - daysInMonth y t.month }

/-- The `oneYearAgo` value of `getUserContributionStats`, as a function of the current
time `now`. -/
def oneYearAgo (now : CivilDateTime) : CivilDateTime :=
  setFullYearMinusOne now

/-- The numeric cutoff the event filter compares against. -/
def cutoffMillis (now : CivilDateTime) : Nat :=
  toMillis (oneYearAgo now)

/-! ### Contribution aggregation (`getUserContributionStats`) -/

/-- The filter predicate `new Date(event.created_at) >= oneYearAgo`.  An
invalid date has numeric value `NaN`, and every JS comparison with `NaN` is
false, so an unparseable `created_at` yields `false`. -/
def eventAtOrAfter (cutoff : Nat) (e : GitHubEvent) : Bool :=
  match e.created_at with
  | some t => cutoff ≤ t
  | none => false

/-- The filter `events.filter((event) => new Date(event.created_at) >= oneYearAgo)`. -/
def recentEvents (now : CivilDateTime) (events : List GitHubEvent) : List GitHubEvent :=
  events.filter (eventAtOrAfter (cutoffMillis now))

/-- One step of the `recentEvents.forEach` switch: the accumulator is
`(totalCommits, totalPullRequests, totalIssues)`. -/
def classifyEvent (acc : Nat × Nat × Nat) (event : GitHubEvent) : Nat × Nat × Nat :=
  if event.type = "PushEvent" then
    match event.payload with
    | some payload =>
      match payload.commits with
      | some commits => (acc.1 + commits.length, acc.2.1, acc.2.2)
      | none => (acc.1 + 1, acc.2.1, acc.2.2)
    | none => (acc.1 + 1, acc.2.1, acc.2.2)
  else if event.type = "PullRequestEvent" then
    (acc.1, acc.2.1 + 1, acc.2.2)
  else if event.type = "IssuesEvent" then
    (acc.1, acc.2.1, acc.2.2 + 1)
  else
    acc

/-- The three counters accumulated over a list of events. -/
def countContributions (events : List GitHubEvent) : Nat × Nat × Nat :=
  events.foldl classifyEvent (0, 0, 0)

/-- A failure raised by a nested API call as seen by
`getUserContributionStats`'s `catch`: either an already-typed
`GitHubApiError`, or any other thrown value. -/
inductive NestedFailure where
  | api (e : GitHubApiError)
  | other
deriving DecidableEq

/-- Which nested API calls `getUserContributionStats` performed, in order. -/
inductive CallTag where
  | events
  | repositories
deriving DecidableEq

/-- The `catch` block of `getUserContributionStats`: an `instanceof
GitHubApiError` failure is re-thrown unchanged, anything else is wrapped in the
fixed connectivity message. -/
def normalizeStatsError (f : NestedFailure) : GitHubApiError :=
  match f with
  | .api e => e
  | .other => ⟨"Failed to fetch contribution statistics. Please check your connection.", none⟩

/-- Function `getUserContributionStats`, with the nested calls `getUserEvents` /
`getUserRepositories` abstracted as their outcomes: the second component
records which nested calls were actually performed (the repositories call
happens only after the events call succeeded). -/
def getUserContributionStats (username : String) (now : CivilDateTime)
    (eventsResult : Except NestedFailure (List GitHubEvent))
    (repositoriesResult : Except NestedFailure (List GitHubRepository)) :
    Except GitHubApiError GitHubContributionStats × List CallTag :=
  if username = "" then
    (.error ⟨"Username is required", none⟩, [])
  else
    match eventsResult with
    | .error f => (.error (normalizeStatsError f), [CallTag.events])
    | .ok events =>
      match repositoriesResult with
      | .error f => (.error (normalizeStatsError f), [CallTag.events, CallTag.repositories])
      | .ok repositories =>
        let recent := recentEvents now events
        let counts := countContributions recent
        (.ok { totalCommits := counts.1
               totalPullRequests := counts.2.1
               totalIssues := counts.2.2
               totalRepositories := repositories.length
               recentActivity := recent.take 10 },
         [CallTag.events, CallTag.repositories])

/-! ### Pagination (`getUserRepositories`) -/

/-- The server's answer to one page request, after the transport: a successful
HTTP page of repositories, a non-success HTTP response (whose decoded error
message and status `handleResponse` turns into a typed error), or a
transport-level failure (`fetch` itself rejecting). -/
inductive PageResponse where
  | ok (repositories : List GitHubRepository)
  | httpError (message : String) (status : Nat)
  | netFailure
deriving DecidableEq

/-- The `while (true)` pagination loop of `getUserRepositories`, with
`allRepositories` the accumulator and the remaining server pages given in
request order.  The result pairs the loop's outcome with the number of page
requests issued; `none` means the given page list ran out while the loop still
wanted a next page (the unmodelled case of an endless server). -/
def fetchRepoPages (allRepositories : List GitHubRepository) :
    List PageResponse → Option (Except GitHubApiError (List GitHubRepository) × Nat)
  | [] => none
  | PageResponse.httpError m s :: _ => some (.error ⟨m, some s⟩, 1)
  | PageResponse.netFailure :: _ =>
      some (.error ⟨"Failed to fetch repositories. Please check your connection.", none⟩, 1)
  | PageResponse.ok repositories :: rest =>
      if repositories.length = 0 then
        some (.ok allRepositories, 1)
      else
        let acc := allRepositories ++ repositories
        if repositories.length < 100 then
          some (.ok acc, 1)
        else
          match fetchRepoPages acc rest with
          | none => none
          | some (r, n) => some (r, n + 1)

/-- Function `getUserRepositories`: an empty username returns `[]` without any request;
otherwise the pagination loop runs from page 1 with an empty accumulator. -/
def getUserRepositories (username : String) (pages : List PageResponse) :
    Option (Except GitHubApiError (List GitHubRepository) × Nat) :=
  if username = "" then some (.ok [], 0) else fetchRepoPages [] pages

/-! ### `handleResponse` and `searchUsers` -/

/-- An HTTP `Response` as the client observes it: the success flag, status and
status text, the `message` field of the error body (`none` when the body is
absent or unparseable, which is what `response.json().catch(...)` defaults),
and the decoded success body. -/
structure HttpResponse (α : Type) where
  ok : Bool
  status : Nat
  statusText : String
  errorMessage : Option String
  body : α

/-- Function `handleResponse`: a non-success response becomes a typed error carrying the
body's `message` (or `"HTTP <status>: <statusText>"` when absent) and the HTTP
status; a success response yields its decoded body. -/
def handleResponse {α : Type} (response : HttpResponse α) : Except GitHubApiError α :=
  if response.ok then .ok response.body
  else
    let message :=
      match response.errorMessage with
      | some m => m
      | none => "HTTP " ++ toString response.status ++ ": " ++ response.statusText
    .error ⟨message, some response.status⟩

/-- Is `c` left unescaped by JS `encodeURIComponent`
(`A–Z a–z 0–9 - _ . ! ~ * ' ( )`)? -/
def isUnreservedURIChar (c : Char) : Bool :=
  (65 ≤ c.toNat && c.toNat ≤ 90) || (97 ≤ c.toNat && c.toNat ≤ 122) ||
  (48 ≤ c.toNat && c.toNat ≤ 57) ||
  [45, 95, 46, 33, 126, 42, 39, 40, 41].contains c.toNat

/-- UTF-8 encoding of a code point, as byte values. -/
def utf8Bytes (n : Nat) : List Nat :=
  if n < 128 then [n]
  else if n < 2048 then [192 + n / 64, 128 + n % 64]
  else if n < 65536 then [224 + n / 4096, 128 + n / 64 % 64, 128 + n % 64]
  else [240 + n / 262144, 128 + n / 4096 % 64, 128 + n / 64 % 64, 128 + n % 64]

/-- Upper-case hexadecimal digit. -/
def hexDigit (n : Nat) : Char :=
  if n < 10 then Char.ofNat (48 + n) else Char.ofNat (55 + n)

/-- The `%XX` escape of one byte. -/
def percentByte (b : Nat) : String :=
  String.mk ['%', hexDigit (b / 16), hexDigit (b % 16)]

/-- JS `encodeURIComponent`. -/
def encodeURIComponent (s : String) : String :=
  String.join (s.data.map fun c =>
    if isUnreservedURIChar c then String.mk [c]
    else String.join ((utf8Bytes c.toNat).map percentByte))

/-- Is `c` in the JS `WhiteSpace`/`LineTerminator` set that
`String.prototype.trim` removes? -/
def isJsWhitespace (c : Char) : Bool :=
  [9, 10, 11, 12, 13, 32, 160, 5760, 8192, 8193, 8194, 8195, 8196, 8197, 8198,
   8199, 8200, 8201, 8202, 8232, 8233, 8239, 8287, 12288, 65279].contains c.toNat

/-- JS `query.trim()`: strip whitespace from both ends. -/
def jsTrim (s : String) : String :=
  String.mk (((s.data.dropWhile isJsWhitespace).reverse.dropWhile isJsWhitespace).reverse)

/-- The request `searchUsers` issues, decomposed into the value placed in the
`q` query parameter and the `per_page` parameter. -/
structure SearchUsersRequest where
  q : String
  per_page : Nat
deriving DecidableEq

/-- The URL string the source assembles for a search request. -/
def searchUsersUrl (r : SearchUsersRequest) : String :=
  "https://api.github.com/search/users?q=" ++ r.q ++ "&per_page=" ++ toString r.per_page

/-- The outcome of one `fetch`: a response, or a transport-level rejection. -/
inductive FetchOutcome (α : Type) where
  | success (response : α)
  | failure

/-- The default of `searchUsers`'s `limit` parameter. -/
def searchUsersDefaultLimit : Nat := 5

/-- Function `searchUsers`, with the single `fetch`'s outcome abstracted; the second
component lists the requests issued.  The source checks `!query.trim()` for the
early return but builds the URL from `encodeURIComponent(query)` — the
original, untrimmed query. -/
def searchUsers (query : String) (limit : Nat)
    (fetch : FetchOutcome (HttpResponse GitHubSearchUsersResponse)) :
    Except GitHubApiError (List GitHubUser) × List SearchUsersRequest :=
  if jsTrim query = "" then
    (.ok [], [])
  else
    let request : SearchUsersRequest := ⟨encodeURIComponent query, limit⟩
    match fetch with
    | .failure =>
        (.error ⟨"Failed to search users. Please check your connection.", none⟩, [request])
    | .success response =>
      match handleResponse response with
      | .error e => (.error e, [request])
      | .ok data => (.ok data.items, [request])

/-! ### Query-layer retry policies (`useGitHubStore` hooks file) -/

/-- The failure handed to a retry callback: the typed `GitHubApiError`, or any
other thrown value (which is not `instanceof GitHubApiError`). -/
inductive QueryError where
  | apiError (e : GitHubApiError)
  | otherError
deriving DecidableEq

/-- The status code carried by a query failure, if any. -/
def QueryError.statusCode : QueryError → Option Nat
  | .apiError e => e.status
  | .otherError => none

/-- The `retry` callback of `useSearchUsers`. -/
def searchUsersRetry (failureCount : Nat) (error : QueryError) : Bool :=
  match error with
  | .apiError e => if e.status = some 403 then false else decide (failureCount < 3)
  | .otherError => decide (failureCount < 3)

/-- The `retry` callback of `useUserRepositories`. -/
def userRepositoriesRetry (failureCount : Nat) (error : QueryError) : Bool :=
  match error with
  | .apiError e => if e.status = some 403 then false else decide (failureCount < 3)
  | .otherError => decide (failureCount < 3)

/-- The `retry` callback of `useUser` (the single-account lookup). -/
def userRetry (failureCount : Nat) (error : QueryError) : Bool :=
  match error with
  | .apiError e =>
      if e.status = some 403 || e.status = some 404 then false
      else decide (failureCount < 3)
  | .otherError => decide (failureCount < 3)

/-! ### Specification-side helpers and sample data -/

/-- What one event adds to the commit total in the `switch`: a push event with
a commits array adds its length, a push event without one adds 1, anything else
adds 0. -/
def commitContribution (e : GitHubEvent) : Nat :=
  if e.type = "PushEvent" then
    match e.payload with
    | some payload =>
      match payload.commits with
      | some commits => commits.length
      | none => 1
    | none => 1
  else 0

/-- What one event adds to the pull-request total. -/
def prContribution (e : GitHubEvent) : Nat :=
  if e.type = "PullRequestEvent" then 1 else 0

/-- What one event adds to the issue total. -/
def issueContribution (e : GitHubEvent) : Nat :=
  if e.type = "IssuesEvent" then 1 else 0

/-- A sample repository for concrete evaluations. -/
def sampleRepo : GitHubRepository :=
  ⟨1296269, "Hello-World", "octocat/Hello-World", none,
   "https://github.com/octocat/Hello-World", 80, 80, 9, some "C",
   "2011-01-26T19:14:43Z", [], false, false⟩

/-- A second sample repository. -/
def sampleRepo2 : GitHubRepository :=
  ⟨1300192, "Spoon-Knife", "octocat/Spoon-Knife", some "This repo is for demonstration",
   "https://github.com/octocat/Spoon-Knife", 12, 12, 14, some "HTML",
   "2022-01-26T19:14:43Z", ["fork-me"], false, false⟩

/-- A sample account for concrete evaluations. -/
def sampleUser : GitHubUser :=
  ⟨583231, "octocat", "https://avatars.githubusercontent.com/u/583231",
   "https://github.com/octocat", "User"⟩

/-- A full page of 100 repositories. -/
def page100 : List GitHubRepository := List.replicate 100 sampleRepo

/-- A terminal page of 37 repositories. -/
def page37 : List GitHubRepository := List.replicate 37 sampleRepo

/-- A terminal page of 42 repositories. -/
def page42 : List GitHubRepository := List.replicate 42 sampleRepo

/-- Midnight `2024-06-01T00:00:00`, the computation time of the concrete examples. -/
def exampleNow : CivilDateTime := ⟨2024, 6, 1, 0⟩

/-- The instant `n` days before `exampleNow`, in milliseconds. -/
def daysAgo (n : Nat) : Nat := toMillis exampleNow - n * 86400000

/-- A push event 30 days old carrying 2 commits. -/
def pushEvent30 : GitHubEvent :=
  ⟨"1", "PushEvent", some (daysAgo 30), none, some ⟨some [⟨"a1", "c1"⟩, ⟨"a2", "c2"⟩]⟩⟩

/-- A pull-request event 60 days old. -/
def prEvent60 : GitHubEvent := ⟨"2", "PullRequestEvent", some (daysAgo 60), none, none⟩

/-- An issue event 90 days old. -/
def issueEvent90 : GitHubEvent := ⟨"3", "IssuesEvent", some (daysAgo 90), none, none⟩

/-- A push event 400 days old carrying 1 commit. -/
def pushEvent400 : GitHubEvent :=
  ⟨"4", "PushEvent", some (daysAgo 400), none, some ⟨some [⟨"a3", "c3"⟩]⟩⟩

/-- The `n`-th of a family of same-age recent push events. -/
def recentPush (n : Nat) : GitHubEvent :=
  ⟨toString n, "PushEvent", some (daysAgo 1), none, none⟩

/-- Fifteen same-age recent push events. -/
def fifteenPushes : List GitHubEvent := (List.range 15).map recentPush

/-- An event whose `created_at` does not parse as a valid date. -/
def invalidDateEvent : GitHubEvent := ⟨"bad", "PushEvent", none, none, none⟩

/-- A recent push event whose payload carries an empty commits array. -/
def emptyCommitsPush : GitHubEvent :=
  ⟨"5", "PushEvent", some (daysAgo 2), none, some ⟨some []⟩⟩

/-- A successful search response for concrete evaluations. -/
def sampleSearchResponse : HttpResponse GitHubSearchUsersResponse :=
  ⟨true, 200, "OK", none, ⟨1, false, [sampleUser]⟩⟩

/-! ### Calendar lemmas -/

theorem isLeapYear_iff (y : Nat) :
    isLeapYear y = true ↔ (y % 4 = 0 ∧ y % 100 ≠ 0) ∨ y % 400 = 0 := by
  simp [isLeapYear]

theorem daysBeforeYear_succ (y : Nat) (hy : 1 ≤ y) :
    daysBeforeYear (y + 1) = daysBeforeYear y + (if isLeapYear y then 366 else 365) := by
  obtain ⟨z, rfl⟩ : ∃ z, y = z + 1 := ⟨y - 1, by omega⟩
  unfold daysBeforeYear
  simp only [Nat.add_sub_cancel]
  rw [Nat.succ_div, Nat.succ_div, Nat.succ_div]
  have hleap := isLeapYear_iff (z + 1)
  by_cases h : isLeapYear (z + 1) = true
  · rw [if_pos h]
    rw [hleap] at h
    split_ifs <;> omega
  · rw [if_neg h]
    simp only [hleap] at h
    split_ifs <;> omega

theorem dayNumber_year_step (k m d : Nat) (hm1 : 1 ≤ m) (hm2 : m ≤ 12) (hd1 : 1 ≤ d)
    (hd : d ≤ daysInMonth (k + 1) m) (hd2 : d ≤ daysInMonth (k + 2) m) :
    dayNumber (k + 2) m d = dayNumber (k + 1) m d + 365 ∨
    dayNumber (k + 2) m d = dayNumber (k + 1) m d + 366 := by
  have hstep : daysBeforeYear (k + 2) =
      daysBeforeYear (k + 1) + (if isLeapYear (k + 1) then 366 else 365) :=
    daysBeforeYear_succ (k + 1) (by omega)
  unfold dayNumber
  rw [hstep]
  interval_cases m <;>
    simp only [daysBeforeMonth, daysInMonth] at hd hd2 ⊢ <;>
    split_ifs at hd hd2 ⊢ <;>
    omega

theorem dayNumber_overflow_step (k m d : Nat) (hm1 : 1 ≤ m) (hm2 : m ≤ 12) (hd1 : 1 ≤ d)
    (hd2 : d ≤ daysInMonth (k + 2) m) (hd : ¬ d ≤ daysInMonth (k + 1) m) :
    dayNumber (k + 2) m d = dayNumber (k + 1) (m + 1) (d - daysInMonth (k + 1) m) + 365 ∨
    dayNumber (k + 2) m d = dayNumber (k + 1) (m + 1) (d - daysInMonth (k + 1) m) + 366 := by
  have hstep : daysBeforeYear (k + 2) =
      daysBeforeYear (k + 1) + (if isLeapYear (k + 1) then 366 else 365) :=
    daysBeforeYear_succ (k + 1) (by omega)
  unfold dayNumber
  rw [hstep]
  interval_cases m <;>
    simp only [daysBeforeMonth, daysInMonth] at hd hd2 ⊢ <;>
    split_ifs at hd hd2 ⊢ <;>
    omega

/-- Decrementing the year of a valid civil date-time moves the instant back by
exactly 365 or 366 days. -/
theorem toMillis_setFullYearMinusOne (t : CivilDateTime) (hy : 2 ≤ t.year)
    (hm1 : 1 ≤ t.month) (hm2 : t.month ≤ 12) (hd1 : 1 ≤ t.day)
    (hd2 : t.day ≤ daysInMonth t.year t.month) :
    toMillis t = toMillis (setFullYearMinusOne t) + 365 * 86400000 ∨
    toMillis t = toMillis (setFullYearMinusOne t) + 366 * 86400000 := by
  obtain ⟨y, m, d, ms⟩ := t
  simp only at hy hm1 hm2 hd1 hd2 ⊢
  obtain ⟨k, rfl⟩ : ∃ k, y = k + 2 := ⟨y - 2, by omega⟩
  have hk : k + 2 - 1 = k + 1 := by omega
  by_cases hfeb : d ≤ daysInMonth (k + 1) m
  · have hset : setFullYearMinusOne ⟨k + 2, m, d, ms⟩ = ⟨k + 1, m, d, ms⟩ := by
      unfold setFullYearMinusOne
      dsimp only
      rw [hk, if_pos hfeb]
    rw [hset]
    have h := dayNumber_year_step k m d hm1 hm2 hd1 hfeb hd2
    unfold toMillis
    dsimp only
    omega
  · have hset : setFullYearMinusOne ⟨k + 2, m, d, ms⟩ =
        ⟨k + 1, m + 1, d - daysInMonth (k + 1) m, ms⟩ := by
      unfold setFullYearMinusOne
      dsimp only
      rw [hk, if_neg hfeb]
    rw [hset]
    have h := dayNumber_overflow_step k m d hm1 hm2 hd1 hd2 hfeb
    unfold toMillis
    dsimp only
    omega

/-! ### Pagination lemmas -/

theorem fetchRepoPages_nil (acc : List GitHubRepository) :
    fetchRepoPages acc [] = none := rfl

theorem fetchRepoPages_httpError (acc : List GitHubRepository) (m : String) (s : Nat)
    (rest : List PageResponse) :
    fetchRepoPages acc (PageResponse.httpError m s :: rest) = some (.error ⟨m, some s⟩, 1) := rfl

theorem fetchRepoPages_netFailure (acc : List GitHubRepository) (rest : List PageResponse) :
    fetchRepoPages acc (PageResponse.netFailure :: rest) =
      some (.error ⟨"Failed to fetch repositories. Please check your connection.", none⟩, 1) := rfl

theorem fetchRepoPages_ok_cons (acc p : List GitHubRepository) (rest : List PageResponse) :
    fetchRepoPages acc (PageResponse.ok p :: rest) =
      if p.length = 0 then some (.ok acc, 1)
      else if p.length < 100 then some (.ok (acc ++ p), 1)
      else
        match fetchRepoPages (acc ++ p) rest with
        | none => none
        | some (r, n) => some (r, n + 1) := rfl

/-- A page of fewer than 100 repositories (including an empty page) terminates
the loop with the accumulator extended by that page. -/
theorem fetchRepoPages_terminal (acc last : List GitHubRepository)
    (rest : List PageResponse) (hlast : last.length < 100) :
    fetchRepoPages acc (PageResponse.ok last :: rest) = some (.ok (acc ++ last), 1) := by
  rw [fetchRepoPages_ok_cons]
  by_cases h0 : last.length = 0
  · rw [if_pos h0]
    have hnil : last = [] := List.length_eq_zero.mp h0
    simp [hnil]
  · rw [if_neg h0, if_pos hlast]

/-- Consuming a block of full pages accumulates their concatenation and adds
one request per page. -/
theorem fetchRepoPages_full_pages (full : List (List GitHubRepository)) :
    ∀ (acc : List GitHubRepository) (rest : List PageResponse),
      (∀ p ∈ full, p.length = 100) →
      fetchRepoPages acc (full.map PageResponse.ok ++ rest) =
        match fetchRepoPages (acc ++ full.join) rest with
        | none => none
        | some (r, n) => some (r, n + full.length) := by
  induction full with
  | nil =>
      intro acc rest _
      simp only [List.map_nil, List.nil_append, List.join_nil, List.append_nil, List.length_nil]
      cases h : fetchRepoPages acc rest with
      | none => simp
      | some v =>
          obtain ⟨r, n⟩ := v
          simp
  | cons p full ih =>
      intro acc rest hfull
      have hp : p.length = 100 := hfull p (List.mem_cons_self p full)
      simp only [List.map_cons, List.cons_append]
      rw [fetchRepoPages_ok_cons, if_neg (by omega), if_neg (by omega)]
      rw [ih (acc ++ p) rest fun q hq => hfull q (List.mem_cons_of_mem p hq)]
      have hjoin : (p :: full).join = p ++ full.join := rfl
      rw [hjoin, ← List.append_assoc]
      cases h : fetchRepoPages (acc ++ p ++ full.join) rest with
      | none => simp
      | some v =>
          obtain ⟨r, n⟩ := v
          simp [Nat.add_assoc]

/-! ### Claim theorems: pagination -/

/-- Claim C1: for a non-empty handle, `getUserRepositories` walks the server's
pages in order: any block of pages of exactly 100 items is followed by a
further request, a page of fewer than 100 items (including an empty page)
terminates the loop, the result is all pages concatenated in received order,
and the number of requests is the number of pages consumed; a failing page
(HTTP error or transport failure) aborts the whole operation with the typed
error, discarding the items accumulated from earlier pages. -/
theorem getUserRepositories_pagination (username : String) (hu : username ≠ "")
    (full : List (List GitHubRepository)) (hfull : ∀ p ∈ full, p.length = 100)
    (last : List GitHubRepository) (hlast : last.length < 100)
    (message : String) (status : Nat) (rest₁ rest₂ rest₃ : List PageResponse) :
    getUserRepositories username (full.map PageResponse.ok ++ PageResponse.ok last :: rest₁)
      = some (.ok (full.join ++ last), full.length + 1)
  ∧ getUserRepositories username
        (full.map PageResponse.ok ++ PageResponse.httpError message status :: rest₂)
      = some (.error ⟨message, some status⟩, full.length + 1)
  ∧ getUserRepositories username (full.map PageResponse.ok ++ PageResponse.netFailure :: rest₃)
      = some (.error ⟨"Failed to fetch repositories. Please check your connection.", none⟩,
              full.length + 1) := by
  refine ⟨?_, ?_, ?_⟩
  · unfold getUserRepositories
    rw [if_neg hu, fetchRepoPages_full_pages full [] _ hfull]
    simp only [List.nil_append]
    rw [fetchRepoPages_terminal full.join last rest₁ hlast]
    simp [Nat.add_comm]
  · unfold getUserRepositories
    rw [if_neg hu, fetchRepoPages_full_pages full [] _ hfull, fetchRepoPages_httpError]
    simp [Nat.add_comm]
  · unfold getUserRepositories
    rw [if_neg hu, fetchRepoPages_full_pages full [] _ hfull, fetchRepoPages_netFailure]
    simp [Nat.add_comm]

set_option maxRecDepth 40000 in
/-- Witness for `getUserRepositories_pagination`: pages of sizes
`[100, 100, 37]` give 3 requests and 237 repositories in order; `[100, 0]`
gives 2 requests and 100 repositories; a single page of 42 gives 1 request and
42 repositories; and a 403 error on the second page aborts with the typed
error after 2 requests. -/
theorem getUserRepositories_pagination_witness :
    getUserRepositories "octocat"
        [PageResponse.ok page100, PageResponse.ok page100, PageResponse.ok page37]
      = some (.ok (page100 ++ (page100 ++ page37)), 3)
  ∧ (page100 ++ (page100 ++ page37)).length = 237
  ∧ getUserRepositories "octocat" [PageResponse.ok page100, PageResponse.ok []]
      = some (.ok page100, 2)
  ∧ getUserRepositories "octocat" [PageResponse.ok page42]
      = some (.ok page42, 1)
  ∧ getUserRepositories "octocat"
        [PageResponse.ok page100, PageResponse.httpError "API rate limit exceeded" 403]
      = some (.error ⟨"API rate limit exceeded", some 403⟩, 2) := by
  have h100 : ∀ p ∈ [page100, page100], p.length = 100 := by
    intro p hp
    rcases List.mem_cons.mp hp with h | h
    · simp [h, page100]
    · simp [List.mem_singleton.mp h, page100]
  have h100' : ∀ p ∈ [page100], p.length = 100 := by
    intro p hp
    simp [List.mem_singleton.mp hp, page100]
  have h0 : ∀ p ∈ ([] : List (List GitHubRepository)), p.length = 100 := by
    intro p hp
    simp at hp
  refine ⟨?_, ?_, ?_, ?_, ?_⟩
  · have h := (getUserRepositories_pagination "octocat" (by decide) [page100, page100] h100
      page37 (by simp [page37]) "x" 0 [] [] []).1
    exact h.trans rfl
  · decide
  · have h := (getUserRepositories_pagination "octocat" (by decide) [page100] h100'
      [] (by simp) "x" 0 [] [] []).1
    exact h.trans rfl
  · have h := (getUserRepositories_pagination "octocat" (by decide) [] h0
      page42 (by simp [page42]) "x" 0 [] [] []).1
    exact h.trans rfl
  · have h := (getUserRepositories_pagination "octocat" (by decide) [page100] h100'
      [] (by simp) "API rate limit exceeded" 403 [] [] []).2.1
    exact h.trans rfl

/-! ### Claim theorems: retry policies and error propagation -/

/-- Claim C6: each of the Query Cache Layer's default retry callbacks stops
(returns `false`) on any failure whose status is 403, regardless of the attempt
count; the single-account lookup (`useUser`) also stops on 404; on any other
failure the callback continues exactly while fewer than 3 attempts have
failed. -/
theorem retry_policy_spec (failureCount : Nat) (error : QueryError)
    (e403 e404 : GitHubApiError) (h403 : e403.status = some 403)
    (h404 : e404.status = some 404) :
    (searchUsersRetry failureCount (.apiError e403) = false
      ∧ userRepositoriesRetry failureCount (.apiError e403) = false
      ∧ userRetry failureCount (.apiError e403) = false
      ∧ userRetry failureCount (.apiError e404) = false)
  ∧ (error.statusCode ≠ some 403 →
      (searchUsersRetry failureCount error = true ↔ failureCount < 3)
      ∧ (userRepositoriesRetry failureCount error = true ↔ failureCount < 3))
  ∧ (error.statusCode ≠ some 403 → error.statusCode ≠ some 404 →
      (userRetry failureCount error = true ↔ failureCount < 3)) := by
  refine ⟨⟨?_, ?_, ?_, ?_⟩, ?_, ?_⟩
  · simp [searchUsersRetry, h403]
  · simp [userRepositoriesRetry, h403]
  · simp [userRetry, h403]
  · simp [userRetry, h404]
  · intro h
    cases error with
    | apiError e =>
        simp only [QueryError.statusCode] at h
        constructor <;> simp [searchUsersRetry, userRepositoriesRetry, h]
    | otherError =>
        constructor <;> simp [searchUsersRetry, userRepositoriesRetry]
  · intro h3 h4
    cases error with
    | apiError e =>
        simp only [QueryError.statusCode] at h3 h4
        simp [userRetry, h3, h4]
    | otherError => simp [userRetry]

/-- Witness for `retry_policy_spec` at concrete inputs: a 403 is never retried
(here at attempt count 7), a 404 stops the single-account lookup, a 500 failure
follows the attempt-count rule, and so does a non-typed failure. -/
theorem retry_policy_spec_witness :
    searchUsersRetry 7 (.apiError ⟨"API rate limit exceeded", some 403⟩) = false
  ∧ userRetry 0 (.apiError ⟨"Not Found", some 404⟩) = false
  ∧ (searchUsersRetry 2 (.apiError ⟨"boom", some 500⟩) = true ↔ 2 < 3)
  ∧ (userRetry 1 QueryError.otherError = true ↔ 1 < 3) :=
  ⟨(retry_policy_spec 7 QueryError.otherError ⟨"API rate limit exceeded", some 403⟩
      ⟨"Not Found", some 404⟩ rfl rfl).1.1,
   (retry_policy_spec 0 QueryError.otherError ⟨"API rate limit exceeded", some 403⟩
      ⟨"Not Found", some 404⟩ rfl rfl).1.2.2.2,
   ((retry_policy_spec 2 (.apiError ⟨"boom", some 500⟩) ⟨"API rate limit exceeded", some 403⟩
      ⟨"Not Found", some 404⟩ rfl rfl).2.1 (by decide)).1,
   (retry_policy_spec 1 QueryError.otherError ⟨"API rate limit exceeded", some 403⟩
      ⟨"Not Found", some 404⟩ rfl rfl).2.2 (by decide) (by decide)⟩

/-- Claim C8: `getUserContributionStats` on an empty handle fails immediately
with the typed validation error (no status) and performs no nested call; on a
non-empty handle it performs the events call first and the repositories call
only if the events call succeeded; a typed nested error propagates unchanged
and any other nested failure is normalized to the fixed connectivity
message. -/
theorem getUserContributionStats_error_flow (username : String) (hu : username ≠ "")
    (now : CivilDateTime) (e : GitHubApiError) (f : NestedFailure)
    (eventsResult : Except NestedFailure (List GitHubEvent))
    (repositoriesResult : Except NestedFailure (List GitHubRepository))
    (events : List GitHubEvent) :
    getUserContributionStats "" now eventsResult repositoriesResult
      = (.error ⟨"Username is required", none⟩, [])
  ∧ (getUserContributionStats username now (.error f) repositoriesResult).2 = [CallTag.events]
  ∧ (getUserContributionStats username now (.ok events) repositoriesResult).2
      = [CallTag.events, CallTag.repositories]
  ∧ (getUserContributionStats username now (.error (.api e)) repositoriesResult).1 = .error e
  ∧ (getUserContributionStats username now (.ok events) (.error (.api e))).1 = .error e
  ∧ (getUserContributionStats username now (.error .other) repositoriesResult).1
      = .error ⟨"Failed to fetch contribution statistics. Please check your connection.", none⟩
  ∧ (getUserContributionStats username now (.ok events) (.error .other)).1
      = .error ⟨"Failed to fetch contribution statistics. Please check your connection.", none⟩ := by
  refine ⟨by simp [getUserContributionStats], ?_, ?_, ?_, ?_, ?_, ?_⟩ <;>
    cases repositoriesResult <;>
    simp [getUserContributionStats, normalizeStatsError, hu]

/-- Witness for `getUserContributionStats_error_flow` at concrete inputs. -/
theorem getUserContributionStats_error_flow_witness :
    getUserContributionStats "" ⟨2024, 6, 1, 0⟩ (.ok []) (.ok [])
      = (.error ⟨"Username is required", none⟩, [])
  ∧ (getUserContributionStats "octocat" ⟨2024, 6, 1, 0⟩
        (.error (.api ⟨"API rate limit exceeded", some 403⟩)) (.ok [])).1
      = .error ⟨"API rate limit exceeded", some 403⟩
  ∧ (getUserContributionStats "octocat" ⟨2024, 6, 1, 0⟩ (.ok []) (.error .other)).1
      = .error ⟨"Failed to fetch contribution statistics. Please check your connection.", none⟩ :=
  ⟨(getUserContributionStats_error_flow "octocat" (by decide) ⟨2024, 6, 1, 0⟩
      ⟨"API rate limit exceeded", some 403⟩ .other (.ok []) (.ok []) []).1,
   (getUserContributionStats_error_flow "octocat" (by decide) ⟨2024, 6, 1, 0⟩
      ⟨"API rate limit exceeded", some 403⟩ .other (.ok []) (.ok []) []).2.2.2.1,
   (getUserContributionStats_error_flow "octocat" (by decide) ⟨2024, 6, 1, 0⟩
      ⟨"API rate limit exceeded", some 403⟩ .other (.ok []) (.error .other) []).2.2.2.2.2.2⟩

/-- Claim C2: a non-success HTTP response is turned by `handleResponse` into a
typed error whose message is the body's `message` field — or
`"HTTP <status>: <statusText>"` when the body is absent/unparseable — and whose
status is the HTTP status; `searchUsers` re-throws such a typed error
unchanged, and turns a transport failure into the fixed connectivity message
with no status. -/
theorem handleResponse_error_spec {α : Type} (response : HttpResponse α)
    (searchResponse : HttpResponse GitHubSearchUsersResponse)
    (query : String) (limit : Nat) (m : String) (e : GitHubApiError)
    (hq : jsTrim query ≠ "") :
    (response.ok = false → response.errorMessage = some m →
        handleResponse response = .error ⟨m, some response.status⟩)
  ∧ (response.ok = false → response.errorMessage = none →
        handleResponse response =
          .error ⟨"HTTP " ++ toString response.status ++ ": " ++ response.statusText,
                  some response.status⟩)
  ∧ (handleResponse searchResponse = .error e →
        (searchUsers query limit (.success searchResponse)).1 = .error e)
  ∧ (searchUsers query limit .failure).1 =
        .error ⟨"Failed to search users. Please check your connection.", none⟩ := by
  refine ⟨?_, ?_, ?_, ?_⟩
  · intro h1 h2
    simp [handleResponse, h1, h2]
  · intro h1 h2
    simp [handleResponse, h1, h2]
  · intro h
    simp [searchUsers, hq, h]
  · simp [searchUsers, hq]

/-- Witness for `handleResponse_error_spec` at a concrete 403 response with a
decoded message, a 500 response without one, and a transport failure. -/
theorem handleResponse_error_spec_witness :
    handleResponse (α := GitHubSearchUsersResponse)
        ⟨false, 403, "Forbidden", some "API rate limit exceeded", ⟨0, false, []⟩⟩
      = .error ⟨"API rate limit exceeded", some 403⟩
  ∧ handleResponse (α := GitHubSearchUsersResponse)
        ⟨false, 500, "Internal Server Error", none, ⟨0, false, []⟩⟩
      = .error ⟨"HTTP " ++ toString 500 ++ ": " ++ "Internal Server Error", some 500⟩
  ∧ (searchUsers "octocat" 5
        (.success ⟨false, 403, "Forbidden", some "API rate limit exceeded", ⟨0, false, []⟩⟩)).1
      = .error ⟨"API rate limit exceeded", some 403⟩
  ∧ (searchUsers "octocat" 5 .failure).1 =
        .error ⟨"Failed to search users. Please check your connection.", none⟩ := by
  have h := handleResponse_error_spec
    (⟨false, 403, "Forbidden", some "API rate limit exceeded", ⟨0, false, []⟩⟩ :
      HttpResponse GitHubSearchUsersResponse)
    ⟨false, 403, "Forbidden", some "API rate limit exceeded", ⟨0, false, []⟩⟩
    "octocat" 5 "API rate limit exceeded" ⟨"API rate limit exceeded", some 403⟩ (by decide)
  have h2 := handleResponse_error_spec
    (⟨false, 500, "Internal Server Error", none, ⟨0, false, []⟩⟩ :
      HttpResponse GitHubSearchUsersResponse)
    ⟨false, 500, "Internal Server Error", none, ⟨0, false, []⟩⟩
    "octocat" 5 "unused" ⟨"unused", none⟩ (by decide)
  exact ⟨h.1 rfl rfl, h2.2.1 rfl rfl, h.2.2.1 (h.1 rfl rfl), h.2.2.2⟩

/-! ### Aggregation lemmas -/

theorem classifyEvent_eq (acc : Nat × Nat × Nat) (e : GitHubEvent) :
    classifyEvent acc e =
      (acc.1 + commitContribution e, acc.2.1 + prContribution e,
       acc.2.2 + issueContribution e) := by
  by_cases h1 : e.type = "PushEvent"
  · rcases hp : e.payload with _ | p
    · simp [classifyEvent, commitContribution, prContribution, issueContribution, h1, hp]
    · rcases hc : p.commits with _ | cs <;>
        simp [classifyEvent, commitContribution, prContribution, issueContribution, h1, hp, hc]
  · by_cases h2 : e.type = "PullRequestEvent"
    · simp [classifyEvent, commitContribution, prContribution, issueContribution, h1, h2]
    · by_cases h3 : e.type = "IssuesEvent" <;>
        simp [classifyEvent, commitContribution, prContribution, issueContribution, h1, h2, h3]

theorem countContributions_foldl (events : List GitHubEvent) :
    ∀ acc : Nat × Nat × Nat,
      events.foldl classifyEvent acc =
        (acc.1 + (events.map commitContribution).sum,
         acc.2.1 + (events.map prContribution).sum,
         acc.2.2 + (events.map issueContribution).sum) := by
  induction events with
  | nil => intro acc; simp
  | cons e es ih =>
      intro acc
      rw [List.foldl_cons, ih (classifyEvent acc e), classifyEvent_eq]
      simp [Nat.add_assoc]

/-- The three counters are the sums of the per-event contributions. -/
theorem countContributions_eq (events : List GitHubEvent) :
    countContributions events =
      ((events.map commitContribution).sum,
       (events.map prContribution).sum,
       (events.map issueContribution).sum) := by
  unfold countContributions
  rw [countContributions_foldl]
  simp

/-- Closed form of a successful `getUserContributionStats` run. -/
theorem getUserContributionStats_ok (username : String) (hu : username ≠ "")
    (now : CivilDateTime) (events : List GitHubEvent)
    (repositories : List GitHubRepository) :
    (getUserContributionStats username now (.ok events) (.ok repositories)).1 =
      .ok { totalCommits := ((recentEvents now events).map commitContribution).sum
            totalPullRequests := ((recentEvents now events).map prContribution).sum
            totalIssues := ((recentEvents now events).map issueContribution).sum
            totalRepositories := repositories.length
            recentActivity := (recentEvents now events).take 10 } := by
  simp [getUserContributionStats, hu, countContributions_eq]

/-- Events with an invalid `created_at` never pass the window filter, so
dropping them from the input leaves the recent set unchanged. -/
theorem recentEvents_filter_valid (now : CivilDateTime) (events : List GitHubEvent) :
    recentEvents now (events.filter fun ev => ev.created_at.isSome) =
      recentEvents now events := by
  unfold recentEvents
  induction events with
  | nil => rfl
  | cons ev evs ih =>
      by_cases hv : ev.created_at.isSome
      · simp only [List.filter_cons, hv, if_pos, ite_true]
        rw [ih]
      · have hfalse : eventAtOrAfter (cutoffMillis now) ev = false := by
          rcases h : ev.created_at with _ | t
          · simp [eventAtOrAfter, h]
          · rw [h] at hv
            simp at hv
        simp only [List.filter_cons, hv, hfalse]
        simpa using ih

/-! ### Claim theorems: aggregation -/

/-- Claim C4: in a successful aggregation, each recent push event with a commits
array adds its length to the commit total and a push without one adds exactly
1; each recent pull-request (resp. issue) event adds 1 to its total; any other
type changes no counter; the repository total is the length of the full
repository list; and the spec's four-event example yields
`(2, 1, 1, 2, [the 3 in-window events])`. -/
theorem aggregate_classification (username : String) (hu : username ≠ "")
    (now : CivilDateTime) (events : List GitHubEvent)
    (repositories : List GitHubRepository) :
    ((getUserContributionStats username now (.ok events) (.ok repositories)).1 =
        .ok { totalCommits := ((recentEvents now events).map commitContribution).sum
              totalPullRequests := ((recentEvents now events).map prContribution).sum
              totalIssues := ((recentEvents now events).map issueContribution).sum
              totalRepositories := repositories.length
              recentActivity := (recentEvents now events).take 10 })
  ∧ (∀ e (p : GitHubEventPayload) (cs : List GitHubCommit), e.type = "PushEvent" →
        e.payload = some p → p.commits = some cs → commitContribution e = cs.length)
  ∧ (∀ e (p : GitHubEventPayload), e.type = "PushEvent" → e.payload = some p →
        p.commits = none → commitContribution e = 1)
  ∧ (∀ e, e.type = "PushEvent" → e.payload = none → commitContribution e = 1)
  ∧ (∀ e, e.type = "PullRequestEvent" →
        prContribution e = 1 ∧ commitContribution e = 0 ∧ issueContribution e = 0)
  ∧ (∀ e, e.type = "IssuesEvent" →
        issueContribution e = 1 ∧ commitContribution e = 0 ∧ prContribution e = 0)
  ∧ (∀ e acc, e.type ≠ "PushEvent" → e.type ≠ "PullRequestEvent" →
        e.type ≠ "IssuesEvent" → classifyEvent acc e = acc)
  ∧ ((getUserContributionStats "octocat" exampleNow
        (.ok [pushEvent30, prEvent60, issueEvent90, pushEvent400])
        (.ok [sampleRepo, sampleRepo2])).1 =
      .ok ⟨2, 1, 1, 2, [pushEvent30, prEvent60, issueEvent90]⟩) := by
  refine ⟨getUserContributionStats_ok username hu now events repositories,
    ?_, ?_, ?_, ?_, ?_, ?_, ?_⟩
  · intro e p cs h1 h2 h3
    simp [commitContribution, h1, h2, h3]
  · intro e p h1 h2 h3
    simp [commitContribution, h1, h2, h3]
  · intro e h1 h2
    simp [commitContribution, h1, h2]
  · intro e h
    refine ⟨?_, ?_, ?_⟩ <;> simp [prContribution, commitContribution, issueContribution, h]
  · intro e h
    refine ⟨?_, ?_, ?_⟩ <;> simp [prContribution, commitContribution, issueContribution, h]
  · intro e acc h1 h2 h3
    simp [classifyEvent, h1, h2, h3]
  · rfl

/-- Witness for `aggregate_classification` at the spec's concrete example. -/
theorem aggregate_classification_witness :
    (getUserContributionStats "octocat" exampleNow
        (.ok [pushEvent30, prEvent60, issueEvent90, pushEvent400])
        (.ok [sampleRepo, sampleRepo2])).1 =
      .ok ⟨2, 1, 1, 2, [pushEvent30, prEvent60, issueEvent90]⟩ :=
  (aggregate_classification "octocat" (by decide) exampleNow [] []).2.2.2.2.2.2.2

/-- Claim C7: in a successful aggregation, `recentActivity` is the first 10
recent events in original order, so its length is `min 10 (recent length)`;
with 15 same-age in-window push events it is exactly the first 10 of them. -/
theorem recentActivity_first_ten (username : String) (hu : username ≠ "")
    (now : CivilDateTime) (events : List GitHubEvent)
    (repositories : List GitHubRepository) (stats : GitHubContributionStats)
    (h : (getUserContributionStats username now (.ok events) (.ok repositories)).1 = .ok stats) :
    stats.recentActivity = (recentEvents now events).take 10
  ∧ stats.recentActivity.length = min 10 (recentEvents now events).length
  ∧ ((getUserContributionStats "octocat" exampleNow (.ok fifteenPushes) (.ok [])).1 =
      .ok ⟨15, 0, 0, 0, (List.range 10).map recentPush⟩)
  ∧ ((List.range 10).map recentPush).length = 10
  ∧ (List.range 10).map recentPush = fifteenPushes.take 10 := by
  have hok := getUserContributionStats_ok username hu now events repositories
  rw [h] at hok
  have hstats := Except.ok.inj hok
  refine ⟨?_, ?_, ?_, ?_, ?_⟩
  · rw [hstats]
  · rw [hstats]
    simp [List.length_take, Nat.min_comm]
  · rfl
  · simp
  · rfl

/-- Witness for `recentActivity_first_ten`: the fifteen-push example. -/
theorem recentActivity_first_ten_witness :
    (⟨15, 0, 0, 0, (List.range 10).map recentPush⟩ :
        GitHubContributionStats).recentActivity =
      (recentEvents exampleNow fifteenPushes).take 10
  ∧ ((getUserContributionStats "octocat" exampleNow (.ok fifteenPushes) (.ok [])).1 =
      .ok ⟨15, 0, 0, 0, (List.range 10).map recentPush⟩) := by
  have h := recentActivity_first_ten "octocat" (by decide) exampleNow fifteenPushes []
    ⟨15, 0, 0, 0, (List.range 10).map recentPush⟩ (by rfl)
  exact ⟨h.1, h.2.2.1⟩

/-- Claim C9: an event whose `created_at` does not parse never makes the
aggregation fail: it is excluded from the recent set, the whole computation is
unchanged by dropping all such events, and it never appears in
`recentActivity`. -/
theorem invalid_timestamp_excluded (username : String) (hu : username ≠ "")
    (now : CivilDateTime) (events : List GitHubEvent)
    (repositories : List GitHubRepository) (e : GitHubEvent)
    (he : e.created_at = none) :
    (∃ stats, (getUserContributionStats username now (.ok events) (.ok repositories)).1
        = .ok stats)
  ∧ e ∉ recentEvents now events
  ∧ getUserContributionStats username now (.ok events) (.ok repositories)
      = getUserContributionStats username now
          (.ok (events.filter fun ev => ev.created_at.isSome)) (.ok repositories)
  ∧ (∀ stats,
        (getUserContributionStats username now (.ok events) (.ok repositories)).1 = .ok stats →
        e ∉ stats.recentActivity) := by
  have hmem : e ∉ recentEvents now events := by
    simp [recentEvents, List.mem_filter, eventAtOrAfter, he]
  refine ⟨⟨_, getUserContributionStats_ok username hu now events repositories⟩, hmem, ?_, ?_⟩
  · simp [getUserContributionStats, hu, recentEvents_filter_valid]
  · intro stats hstats
    have hok := getUserContributionStats_ok username hu now events repositories
    rw [hstats] at hok
    have heq := Except.ok.inj hok
    rw [heq]
    intro hin
    exact hmem (List.take_subset 10 _ hin)

/-- Witness for `invalid_timestamp_excluded`: an invalid-date event alongside a
valid push event. -/
theorem invalid_timestamp_excluded_witness :
    ((getUserContributionStats "octocat" exampleNow
        (.ok [invalidDateEvent, pushEvent30]) (.ok [sampleRepo])).1 =
      .ok ⟨2, 0, 0, 1, [pushEvent30]⟩)
  ∧ invalidDateEvent ∉ recentEvents exampleNow [invalidDateEvent, pushEvent30]
  ∧ getUserContributionStats "octocat" exampleNow
        (.ok [invalidDateEvent, pushEvent30]) (.ok [sampleRepo])
      = getUserContributionStats "octocat" exampleNow
          (.ok ([invalidDateEvent, pushEvent30].filter fun ev => ev.created_at.isSome))
          (.ok [sampleRepo]) := by
  have h := invalid_timestamp_excluded "octocat" (by decide) exampleNow
    [invalidDateEvent, pushEvent30] [sampleRepo] invalidDateEvent rfl
  exact ⟨by rfl, h.2.1, h.2.2.1⟩

/-- Claim C10: an in-window push event whose payload carries an *empty* commits
array adds exactly 0 to the commit total (the count-as-1 fallback fires only
when the payload or its commits field is absent), while the event still passes
the window filter into the recent set. -/
theorem push_empty_commit_list (acc : Nat × Nat × Nat) (e : GitHubEvent)
    (payload : GitHubEventPayload) (htype : e.type = "PushEvent")
    (hp : e.payload = some payload) (hc : payload.commits = some []) :
    commitContribution e = 0
  ∧ classifyEvent acc e = acc
  ∧ (∀ e2 (p2 : GitHubEventPayload), e2.type = "PushEvent" → e2.payload = some p2 →
        p2.commits = none → commitContribution e2 = 1)
  ∧ (∀ e3, e3.type = "PushEvent" → e3.payload = none → commitContribution e3 = 1)
  ∧ (∀ now events, e ∈ events → eventAtOrAfter (cutoffMillis now) e = true →
        e ∈ recentEvents now events) := by
  refine ⟨?_, ?_, ?_, ?_, ?_⟩
  · simp [commitContribution, htype, hp, hc]
  · obtain ⟨a, b, c⟩ := acc
    simp [classifyEvent, htype, hp, hc]
  · intro e2 p2 h1 h2 h3
    simp [commitContribution, h1, h2, h3]
  · intro e3 h1 h2
    simp [commitContribution, h1, h2]
  · intro now events hin hpass
    simp [recentEvents, List.mem_filter, hin, hpass]

/-- Witness for `push_empty_commit_list`: a concrete empty-commits push adds 0
and still lands in the recent set of the example aggregation. -/
theorem push_empty_commit_list_witness :
    commitContribution emptyCommitsPush = 0
  ∧ classifyEvent (4, 5, 6) emptyCommitsPush = (4, 5, 6)
  ∧ emptyCommitsPush ∈ recentEvents exampleNow [emptyCommitsPush]
  ∧ ((getUserContributionStats "octocat" exampleNow (.ok [emptyCommitsPush]) (.ok [])).1 =
      .ok ⟨0, 0, 0, 0, [emptyCommitsPush]⟩) := by
  have h := push_empty_commit_list (4, 5, 6) emptyCommitsPush ⟨some []⟩ rfl rfl rfl
  refine ⟨h.1, h.2.1, ?_, by rfl⟩
  exact h.2.2.2.2 exampleNow [emptyCommitsPush] (by simp) (by decide)

/-! ### Claim theorems: the time window (corrected) and the search request (corrected) -/

/-- Claim C3 counterexample: the cutoff is *not* always exactly 365 days before
the computation time, and the window length is *not* the same for every
computation time: at `2024-03-01` the window is 366 days (it spans Feb 29,
2024), while at `2023-03-01` it is 365 days. -/
theorem cutoff_window_counterexample :
    toMillis ⟨2024, 3, 1, 0⟩ = cutoffMillis ⟨2024, 3, 1, 0⟩ + 366 * 86400000
  ∧ cutoffMillis ⟨2024, 3, 1, 0⟩ ≠ toMillis ⟨2024, 3, 1, 0⟩ - 365 * 86400000
  ∧ toMillis ⟨2023, 3, 1, 0⟩ = cutoffMillis ⟨2023, 3, 1, 0⟩ + 365 * 86400000
  ∧ toMillis ⟨2024, 3, 1, 0⟩ - cutoffMillis ⟨2024, 3, 1, 0⟩ ≠
      toMillis ⟨2023, 3, 1, 0⟩ - cutoffMillis ⟨2023, 3, 1, 0⟩ := by
  refine ⟨by decide, by decide, by decide, by decide⟩

/-- Claim C3 as amended: the cutoff is the computation time with its year
decremented by one calendar year (`setFullYear(getFullYear() - 1)`, a Feb 29
normalizing to Mar 1), which lies exactly 365 *or* 366 days in the past
depending on the calendar; the recent set is exactly the events whose valid
creation timestamp is at or after (`≥`) the cutoff, kept in original input
order. -/
theorem cutoff_calendar_year (now : CivilDateTime) (events : List GitHubEvent)
    (hy : 2 ≤ now.year) (hm1 : 1 ≤ now.month) (hm2 : now.month ≤ 12)
    (hd1 : 1 ≤ now.day) (hd2 : now.day ≤ daysInMonth now.year now.month) :
    cutoffMillis now = toMillis (setFullYearMinusOne now)
  ∧ (toMillis now = cutoffMillis now + 365 * 86400000 ∨
     toMillis now = cutoffMillis now + 366 * 86400000)
  ∧ (recentEvents now events).Sublist events
  ∧ (∀ e, e ∈ recentEvents now events ↔
        e ∈ events ∧ ∃ t, e.created_at = some t ∧ cutoffMillis now ≤ t) := by
  refine ⟨rfl, ?_, List.filter_sublist events, ?_⟩
  · exact toMillis_setFullYearMinusOne now hy hm1 hm2 hd1 hd2
  · intro e
    rw [recentEvents, List.mem_filter]
    rcases h : e.created_at with _ | t <;> simp [eventAtOrAfter, h]

/-- Witness for `cutoff_calendar_year` at `2024-06-01` with the four-event
example list. -/
theorem cutoff_calendar_year_witness :
    cutoffMillis exampleNow = toMillis (setFullYearMinusOne exampleNow)
  ∧ (toMillis exampleNow = cutoffMillis exampleNow + 365 * 86400000 ∨
     toMillis exampleNow = cutoffMillis exampleNow + 366 * 86400000)
  ∧ (recentEvents exampleNow
        [pushEvent30, prEvent60, issueEvent90, pushEvent400]).Sublist
      [pushEvent30, prEvent60, issueEvent90, pushEvent400] :=
  have h := cutoff_calendar_year exampleNow
    [pushEvent30, prEvent60, issueEvent90, pushEvent400]
    (by decide) (by decide) (by decide) (by decide) (by decide)
  ⟨h.1, h.2.1, h.2.2.1⟩

/-- Claim C5 counterexample: for the query `" a"` (whose trimmed form is `"a"`)
the single issued request carries `q = "%20a"` — the percent-encoding of the
*original* query — which differs from `"a"`, the percent-encoding of the
trimmed query, so the request is not built from the trimmed query. -/
theorem searchUsers_untrimmed_counterexample :
    (searchUsers " a" 5 (.success sampleSearchResponse)).2 = [⟨"%20a", 5⟩]
  ∧ encodeURIComponent (jsTrim " a") = "a"
  ∧ ("%20a" : String) ≠ "a" := by
  refine ⟨by decide, by decide, by decide⟩

/-- Claim C5 as amended: a query whose trimmed form is empty returns an empty
result with zero requests; a query whose trimmed form is non-empty issues
exactly one request whose `q` parameter is the percent-encoding of the
*original, untrimmed* query (trimming is only used for the emptiness check) and
whose `per_page` equals the given limit, with 5 the declared default; on a
success response the result is exactly the `items` field of the decoded
body. -/
theorem searchUsers_request_spec (emptyQuery query : String) (limit : Nat)
    (response : HttpResponse GitHubSearchUsersResponse)
    (fetch : FetchOutcome (HttpResponse GitHubSearchUsersResponse))
    (h0 : jsTrim emptyQuery = "") (hq : jsTrim query ≠ "")
    (hok : response.ok = true) :
    searchUsers emptyQuery limit fetch = (.ok [], [])
  ∧ (searchUsers query limit (.success response)).2 =
      [⟨encodeURIComponent query, limit⟩]
  ∧ (searchUsers query limit .failure).2 = [⟨encodeURIComponent query, limit⟩]
  ∧ (searchUsers query limit (.success response)).1 = .ok response.body.items
  ∧ searchUsersDefaultLimit = 5 := by
  refine ⟨by simp [searchUsers, h0], ?_, by simp [searchUsers, hq], ?_, rfl⟩
  · simp [searchUsers, hq, handleResponse, hok]
  · simp [searchUsers, hq, handleResponse, hok]

/-- Witness for `searchUsers_request_spec`: a whitespace-only query issues no
request; the query `"test"` with limit 5 issues one request with `q = "test"`
and returns the decoded `items`. -/
theorem searchUsers_request_spec_witness :
    searchUsers "   " 5 (.success sampleSearchResponse) = (.ok [], [])
  ∧ (searchUsers "test" 5 (.success sampleSearchResponse)).2 = [⟨"test", 5⟩]
  ∧ (searchUsers "test" 5 (.success sampleSearchResponse)).1 = .ok [sampleUser] := by
  have h := searchUsers_request_spec "   " "test" 5 sampleSearchResponse
    (.success sampleSearchResponse) (by decide) (by decide) (by decide)
  exact ⟨h.1, h.2.1.trans (by decide), h.2.2.2.1.trans rfl⟩

end GhRepoExplorer
